import Mathlib

/-!
Shallow embedding of the `asn1` Python package (files `asn1/utils.py`,
`asn1/tag_length_value_triplet.py`, `asn1/oid.py`, `asn1/asn1_type.py`,
`asn1/universal_types.py`).

Byte strings are modelled as `List Nat` whose elements are below 256 wherever
the source guarantees it.  A Python function that can raise (IndexError,
TypeError on unpacking `None`, OverflowError, ValueError, RecursionError)
is modelled as returning `Option`/`Except`: `none`/`.error` marks the raise.
-/

namespace Asn1

/-- Halving loop for `bitLen`; the first argument is fuel, of which `n` is
always enough since `n` halves to 0 in at most `n` steps. -/
def bitLenGo : Nat → Nat → Nat
  | 0, _ => 0
  | _ + 1, 0 => 0
  | fuel + 1, n + 1 => bitLenGo fuel ((n + 1) / 2) + 1

/-- `int.bit_length()` for non-negative ints: the number of binary digits of
`n`, 0 for 0. -/
def bitLen (n : Nat) : Nat := bitLenGo n n

/-- `k` base-`base` digits of `n`, least significant first. -/
def leDigits (base : Nat) : Nat → Nat → List Nat
  | 0, _ => []
  | k + 1, n => n % base :: leDigits base k (n / base)

/-- `k` base-`base` digits of `n`, most significant first. -/
def beDigits (base k n : Nat) : List Nat := (leDigits base k n).reverse

/-- `int.from_bytes(l, byteorder='big')`. -/
def bytesToNatBE (l : List Nat) : Nat := l.foldl (fun a b => a * 256 + b) 0

/-- `int.to_bytes(length=k, byteorder='big')`: `none` models the OverflowError
raised when `v` does not fit in `k` bytes. -/
def natToBytesBE (k v : Nat) : Option (List Nat) :=
  if v < 256 ^ k then some (beDigits 256 k v) else none

/-- Loop body of `parse_base128_int` (`asn1/utils.py`): `val` and the number
of bytes consumed so far are the loop state. -/
def parse_base128_int_go (val consumed : Nat) : List Nat → Option (Nat × Nat)
  | [] => none
  | b :: rest =>
    if b &&& 128 ≠ 0 then
      parse_base128_int_go (val + ((b &&& 127) <<< 7)) (consumed + 1) rest
    else
      some (val + b, consumed + 1)

/-- `parse_base128_int` from `asn1/utils.py`.  Returns `none` when the loop
exhausts the input without meeting a byte with the high bit clear (the Python
function then implicitly returns `None`). -/
def parse_base128_int (data : List Nat) : Option (Nat × Nat) :=
  parse_base128_int_go 0 0 data

/-- The value a base-128 varint denotes: each byte contributes its low 7 bits,
most significant group first (the spec's description of `decode`). -/
def base128_value (l : List Nat) : Nat :=
  l.foldl (fun acc b => acc * 128 + (b % 128)) 0

/-- A well-formed base-128 varint: zero or more bytes with the high bit set
followed by exactly one byte with the high bit clear. -/
def wellFormedVarint (l : List Nat) : Bool :=
  match l with
  | [] => false
  | _ => l.dropLast.all (fun b => b &&& 128 ≠ 0) &&
      (l.getLast? |>.all (fun b => b &&& 128 = 0))

inductive TagClass
  | universal | application | contextSpecific | priv
  deriving DecidableEq, Repr

def TagClass.toNat : TagClass → Nat
  | .universal => 0
  | .application => 1
  | .contextSpecific => 2
  | .priv => 3

/-- `TagClass(n)` for `n < 4` (the only arguments the source ever passes). -/
def TagClass.fromNat (n : Nat) : TagClass :=
  match n with
  | 0 => .universal
  | 1 => .application
  | 2 => .contextSpecific
  | _ => .priv

inductive TagForm
  | primitive | constructed
  deriving DecidableEq, Repr

def TagForm.toNat : TagForm → Nat
  | .primitive => 0
  | .constructed => 1

def TagForm.fromNat (n : Nat) : TagForm :=
  match n with
  | 0 => .primitive
  | _ => .constructed

structure Tag where
  tag_class : TagClass
  tag_form : TagForm
  tag_number : Nat
  deriving DecidableEq, Repr

/-- `Tag.from_bytes`: `none` models the IndexError on empty input and the
TypeError raised when `parse_base128_int` returns `None`. -/
def Tag.from_bytes : List Nat → Option Tag
  | [] => none
  | b :: rest =>
    if b &&& 31 = 31 then
      match parse_base128_int rest with
      | none => none
      | some (n, _) =>
        some ⟨TagClass.fromNat ((b &&& 192) >>> 6), TagForm.fromNat ((b &&& 32) >>> 5), n⟩
    else
      some ⟨TagClass.fromNat ((b &&& 192) >>> 6), TagForm.fromNat ((b &&& 32) >>> 5), b &&& 31⟩

/-- `Tag.__len__`: `ceil(tag_number.bit_length() / 7) or 1`. -/
def Tag.len (t : Tag) : Nat :=
  if (bitLen t.tag_number + 6) / 7 = 0 then 1 else (bitLen t.tag_number + 6) / 7

/-- `for chunk in chunks[:-1]: append 0x80 | chunk; append chunks[-1]`. -/
def markCont : List Nat → List Nat
  | [] => []
  | [c] => [c]
  | c :: cs => (128 ||| c) :: markCont cs

/-- `Tag.__bytes__`: the multi-byte branch is taken exactly when
`self.__len__() > 1`; the chunks are the `ceil(bit_length/7)` base-128 digits
of `tag_number`, most significant first. -/
def Tag.toBytes (t : Tag) : List Nat :=
  let head := (t.tag_class.toNat <<< 6) ||| (t.tag_form.toNat <<< 5)
  if 1 < t.len then
    (head ||| 31) :: markCont (beDigits 128 ((bitLen t.tag_number + 6) / 7) t.tag_number)
  else
    [head ||| t.tag_number]

structure TagLengthValueTriplet where
  tag : Tag
  value : List Nat
  deriving DecidableEq, Repr

/-- `TagLengthValueTriplet._extract_lengths`: returns
`(num_length_bytes, num_value_bytes)`; `none` models the IndexError on empty
input.  In the long form `num_value_bytes` is `int.from_bytes(data[1:1+n])`,
which silently truncates when fewer than `n` bytes remain. -/
def extract_lengths : List Nat → Option (Nat × Nat)
  | [] => none
  | b :: rest =>
    if b &&& 128 ≠ 0 then
      some (b &&& 127, bytesToNatBE ((rest.take (b &&& 127))))
    else
      some (1, b &&& 127)

/-- `TagLengthValueTriplet.from_bytes`: tag decode, then length extraction on
`data[len(tag):]`, then the value is the slice
`remaining[num_length_bytes : num_length_bytes + num_value_bytes]`
(Python slicing truncates silently past the end). -/
def TagLengthValueTriplet.from_bytes (data : List Nat) : Option TagLengthValueTriplet :=
  match Tag.from_bytes data with
  | none => none
  | some tag =>
    match extract_lengths (data.drop tag.len) with
    | none => none
    | some (nlb, nvb) => some ⟨tag, ((data.drop tag.len).drop nlb).take nvb⟩

/-- `TagLengthValueTriplet.__bytes__`: short length form when
`value_length ≤ 127`; otherwise `0x80 | n` with
`n = ceil(log2(value_length) / 8)` followed by
`value_length.to_bytes(length=n)`.  For `value_length ≥ 2`,
`ceil(log2 L / 8)` equals `(bit_length(L - 1) + 7) / 8` (the least `n` with
`L ≤ 256^n`); `none` models the OverflowError when `L` does not fit. -/
def TagLengthValueTriplet.toBytes (t : TagLengthValueTriplet) : Option (List Nat) :=
  let L := t.value.length
  if L ≤ 127 then
    some (t.tag.toBytes ++ [L] ++ t.value)
  else
    let n := (bitLen (L - 1) + 7) / 8
    match natToBytesBE n L with
    | none => none
    | some ds => some (t.tag.toBytes ++ ((128 ||| n) :: ds) ++ t.value)

/-- `TagLengthValueTriplet.__len__`: `len(tag)` plus a length-field term
(`1` in the short case, `1 + ceil(bits(value_length)/7) * 7` otherwise)
plus `len(value)`. -/
def TagLengthValueTriplet.len (t : TagLengthValueTriplet) : Nat :=
  let L := t.value.length
  let nlf := if L ≤ 127 then 1 else 1 + ((bitLen L + 6) / 7) * 7
  t.tag.len + nlf + L

/-- Loop of `Sequence._from_tlv_triplet` (also `extract_elements` in
`asn1/utils.py`): repeatedly parse a triplet at `data[offset:]` and advance
by `len(triplet)`.  `fuel` bounds the iteration count; every parsed triplet
has `len ≥ 2`, so `data.length + 1` iterations always suffice. -/
def sequence_elements_go (data : List Nat) : Nat → Nat → Option (List TagLengthValueTriplet)
  | _, 0 => none
  | offset, fuel + 1 =>
    if offset < data.length then
      match TagLengthValueTriplet.from_bytes (data.drop offset) with
      | none => none
      | some e =>
        match sequence_elements_go data (offset + e.len) fuel with
        | none => none
        | some rest => some (e :: rest)
    else
      some []

/-- `Sequence._from_tlv_triplet`, returning the parsed sibling triplets. -/
def Sequence_from_tlv_triplet (t : TagLengthValueTriplet) : Option (List TagLengthValueTriplet) :=
  sequence_elements_go t.value 0 (t.value.length + 1)

/-- The unreachable homogeneity check in `SequenceOf._from_tlv_triplet`:
`observed_tag` starts as `None`, is set from the first element, and any
element with a different tag raises ValueError. -/
def sequenceOfTagCheck (obs : Option Tag) : List TagLengthValueTriplet → Bool
  | [] => true
  | e :: rest =>
    if e.tag = obs.getD e.tag then sequenceOfTagCheck (some (obs.getD e.tag)) rest else false

/-- `SequenceOf._from_tlv_triplet`: its first statement is
`cls._from_tlv_triplet(tlv_triplet=tlv_triplet)` — a call to itself, not to
`Sequence._from_tlv_triplet` — so the method recurses on the same argument.
`fuel` is the remaining recursion depth; exhausting it is Python's
RecursionError.  The tag check after the recursive call is kept for
fidelity. -/
def SequenceOf_from_tlv_triplet : Nat → TagLengthValueTriplet → Except String (List TagLengthValueTriplet)
  | 0, _ => .error "RecursionError"
  | fuel + 1, t =>
    match SequenceOf_from_tlv_triplet fuel t with
    | .error e => .error e
    | .ok elems =>
      if sequenceOfTagCheck none elems then .ok elems else .error "ValueError"

/-- `ASN1UniversalTag.BOOLEAN.value = Tag.from_bytes(b'\x01')`. -/
def booleanTag : Tag := ⟨.universal, .primitive, 1⟩

/-- `ASN1UniversalTag.INTEGER.value = Tag.from_bytes(b'\x02')`. -/
def integerTag : Tag := ⟨.universal, .primitive, 2⟩

/-- `ASN1UniversalTag.ENUMERATED.value = Tag.from_bytes(b'\x0A')`. -/
def enumeratedTag : Tag := ⟨.universal, .primitive, 10⟩

/-- `ASN1UniversalTag.SEQUENCE.value = Tag.from_bytes(b'\x30')`. -/
def sequenceTag : Tag := ⟨.universal, .constructed, 16⟩

/-- `Boolean._from_tlv_triplet`: `bool(tlv_triplet.value)` — a Python bytes
object is truthy exactly when it is non-empty. -/
def Boolean_from_tlv_triplet (t : TagLengthValueTriplet) : Bool :=
  t.value ≠ []

/-- `Boolean.tlv_triplet`: `bytes([self.truth_value])`. -/
def Boolean_tlv_triplet (b : Bool) : TagLengthValueTriplet :=
  ⟨booleanTag, [if b then 1 else 0]⟩

/-- `int.from_bytes(l, byteorder='big', signed=True)`. -/
def bytesToIntBE_signed (l : List Nat) : Int :=
  let u := bytesToNatBE l
  if l ≠ [] ∧ 2 ^ (8 * l.length - 1) ≤ u then
    (u : Int) - 2 ^ (8 * l.length)
  else
    (u : Int)

/-- `Integer._from_tlv_triplet`: the value bytes read as a big-endian
two's-complement signed integer. -/
def Integer_from_tlv_triplet (t : TagLengthValueTriplet) : Int :=
  bytesToIntBE_signed t.value

/-- The value bytes built by `Integer.tlv_triplet`.  For `v < 0` Python's
`to_bytes(length=(bit_length+8)//8, signed=True)` always fits, and its bytes
are the base-256 digits of `2^(8k) + v`.  For `v ≥ 0` the byte count is
`(bit_length+7)//8`, which is `0` when `v = 0`, making `bytes_value[0]` raise
IndexError — modelled as `none`; a leading `0x00` is prepended when the first
byte has its high bit set. -/
def Integer_value_bytes (v : Int) : Option (List Nat) :=
  if v < 0 then
    some (beDigits 256 ((bitLen v.natAbs + 8) / 8)
      ((2 ^ (8 * ((bitLen v.natAbs + 8) / 8)) : Int) + v).toNat)
  else
    match beDigits 256 ((bitLen v.toNat + 7) / 8) v.toNat with
    | [] => none
    | b :: bs => some (if b &&& 128 ≠ 0 then 0 :: b :: bs else b :: bs)

/-- `Integer.tlv_triplet` as a whole: the INTEGER tag over the value bytes. -/
def Integer_tlv_triplet (v : Int) : Option TagLengthValueTriplet :=
  (Integer_value_bytes v).map (fun bs => ⟨integerTag, bs⟩)

/-- A class-level `tag` attribute as Python sees it: every concrete type sets
it to a `Tag` (`ASN1UniversalTag.X.value`) except `Enumerated`, whose
declaration reads `tag = ASN1UniversalTag.ENUMERATED` without `.value`, so it
holds the enum member itself.  A `Tag` never compares equal to an enum
member. -/
inductive ClassTagAttr
  | tagVal (t : Tag)
  | enumMember (memberTagNumber : Nat)
  deriving DecidableEq, Repr

/-- `Integer.tag`. -/
def Integer_class_tag : ClassTagAttr := .tagVal integerTag

/-- `Enumerated.tag` (the enum member `ASN1UniversalTag.ENUMERATED`,
missing `.value`). -/
def Enumerated_class_tag : ClassTagAttr := .enumMember 10

/-- `ASN1Type.from_tlv_triplet` for a concrete subclass `cls ≠ ASN1Type`:
`if cls.tag != tlv_triplet.tag: raise ValueError` then delegate to the
subclass decoder.  Both `Integer` and `Enumerated` inherit
`Integer._from_tlv_triplet`. -/
def from_tlv_triplet_as (classTag : ClassTagAttr) (t : TagLengthValueTriplet) :
    Except String Int :=
  if classTag = .tagVal t.tag then .ok (Integer_from_tlv_triplet t)
  else .error "ValueError"

structure OID where
  parts : List Nat
  deriving DecidableEq, Repr

/-- Arc-parsing loop of `OID.from_bytes`: repeatedly `parse_base128_int` on
`data[offset:]` and advance by the consumed count; `none` models the
TypeError raised when `parse_base128_int` returns `None`.  Each successful
parse consumes at least one byte, so `rest.length + 1` iterations suffice. -/
def oid_parts_go : Nat → List Nat → Option (List Nat)
  | 0, _ => none
  | _, [] => some []
  | fuel + 1, rest =>
    match parse_base128_int rest with
    | none => none
    | some (v, c) =>
      match oid_parts_go fuel (rest.drop c) with
      | none => none
      | some vs => some (v :: vs)

/-- `OID.from_bytes`: the first two parts come from `data[0]` alone
(`second = data[0] % 40`, `first = (data[0] - second) / 40`); the remaining
bytes are consumed as base-128 varints.  `none` models the IndexError on
empty input or a varint parse failure. -/
def OID.from_bytes (data : List Nat) : Option OID :=
  match data with
  | [] => none
  | d0 :: rest =>
    match oid_parts_go (rest.length + 1) rest with
    | none => none
    | some vs => some ⟨(d0 - d0 % 40) / 40 :: d0 % 40 :: vs⟩

/-- Per-arc encoding in `OID.__bytes__`: arcs `0..127` are emitted directly;
larger arcs are split into `ceil(bit_length/7)` base-128 chunks with the
continuation bit set on `chunks[0]` only. -/
def oidEncodePart (part : Nat) : List Nat :=
  if part ≤ 127 then [part]
  else
    match beDigits 128 ((bitLen part + 6) / 7) part with
    | [] => []
    | c :: cs => (128 ||| c) :: cs

/-- `OID.__bytes__`: first byte `parts[0] * 40 + parts[1]`, then each later
arc's chunks.  `none` models the IndexError when there are fewer than two
parts and the ValueError from `bytes(...)` when some element is ≥ 256. -/
def OID.toBytes (o : OID) : Option (List Nat) :=
  match o.parts with
  | p0 :: p1 :: rest =>
    let all := (p0 * 40 + p1) :: rest.flatMap oidEncodePart
    if all.all (· < 256) then some all else none
  | _ => none

/-- `ObjectIdentifier._from_tlv_triplet`: `OID.from_bytes(tlv_triplet.value)`. -/
def ObjectIdentifier_from_tlv_triplet (t : TagLengthValueTriplet) : Option OID :=
  OID.from_bytes t.value

/-- C1: the claim says `parse_base128_int` returns the MSB-first concatenation
of the low 7 bits of each byte for every well-formed varint, including
three-byte encodings.  On the well-formed three-byte varint
`0x81 0x80 0x00`, whose value is `16384`, the code returns `128`: the loop
adds `(byte & 0x7F) << 7` for every continuation byte instead of shifting the
accumulator, so all groups before the last land at the same position. -/
theorem C1_parse_base128_int_wide_value_wrong :
    wellFormedVarint [129, 128, 0] = true ∧
    base128_value [129, 128, 0] = 16384 ∧
    parse_base128_int [129, 128, 0] = some (128, 3) ∧
    parse_base128_int [129, 0] = some (128, 2) := by
  refine ⟨by decide, by decide, by decide, by decide⟩

/-- C2: the claim says the Tag encoder uses the long form for every
`number > 30` and that round-trips hold at 0, 30, 31, 127, 128 and a number
needing three continuation bytes.  The code takes the long form only when
`ceil(bit_length/7) > 1`, i.e. `number ≥ 128`: number 31 is packed directly
into bits 4–0, producing the lone byte `0x1F` that fails to decode
(`parse_base128_int` of the empty tail is `None`); number 127 produces `0x7F`,
clobbering the form bit as well; number 16384 (three continuation bytes)
encodes fine but decodes to 128 because of the C1 accumulator slip.
Round-trips at 0, 30, 128 do hold. -/
theorem C2_tag_roundtrip_broken_at_31_127_and_wide :
    Tag.from_bytes (Tag.toBytes ⟨.universal, .primitive, 0⟩) =
      some ⟨.universal, .primitive, 0⟩ ∧
    Tag.from_bytes (Tag.toBytes ⟨.universal, .primitive, 30⟩) =
      some ⟨.universal, .primitive, 30⟩ ∧
    Tag.toBytes ⟨.universal, .primitive, 31⟩ = [31] ∧
    Tag.from_bytes (Tag.toBytes ⟨.universal, .primitive, 31⟩) = none ∧
    Tag.toBytes ⟨.universal, .primitive, 127⟩ = [127] ∧
    Tag.from_bytes (Tag.toBytes ⟨.universal, .primitive, 127⟩) = none ∧
    Tag.from_bytes (Tag.toBytes ⟨.universal, .primitive, 128⟩) =
      some ⟨.universal, .primitive, 128⟩ ∧
    Tag.toBytes ⟨.universal, .primitive, 16384⟩ = [31, 129, 128, 0] ∧
    Tag.from_bytes (Tag.toBytes ⟨.universal, .primitive, 16384⟩) =
      some ⟨.universal, .primitive, 128⟩ := by
  refine ⟨by decide, by decide, by decide, by decide, by decide, by decide,
    by decide, by decide, by decide⟩

/-- C4 counterexample: the claim says that when the declared content length
exceeds the remaining buffer, TLV decoding fails (TruncatedInput) rather than
returning a truncated value, and that Sequence decode fails when one byte is
withheld.  On `02 05 01` — declared length 5 with one byte remaining — the
code returns a triplet whose value is the single available byte, and the
Sequence value `02 01 05 02 01` (one byte withheld from the second sibling)
decodes without error to two siblings, the second with an empty value. -/
theorem C4_counterexample_truncation_not_detected :
    TagLengthValueTriplet.from_bytes [2, 5, 1] = some ⟨integerTag, [1]⟩ ∧
    TagLengthValueTriplet.from_bytes [2, 5, 1] ≠ none ∧
    Sequence_from_tlv_triplet ⟨sequenceTag, [2, 1, 5, 2, 1]⟩ =
      some [⟨integerTag, [5]⟩, ⟨integerTag, []⟩] := by
  refine ⟨by decide, by decide, by decide⟩

/-- C4 amended: TLV decoding does not detect truncation — when the declared
content length exceeds the remaining bytes, the returned triplet's value is
silently truncated to what is available (for a buffer `02 05 v` the value is
the first five bytes of `v`, whatever its length); Sequence decode succeeds
when the sibling triplets exactly fill the declared value length, and also
succeeds when one byte is withheld, returning a truncated final sibling. -/
theorem C4_amended_silent_truncation :
    (∀ v : List Nat, TagLengthValueTriplet.from_bytes (2 :: 5 :: v) =
      some ⟨integerTag, v.take 5⟩) ∧
    Sequence_from_tlv_triplet ⟨sequenceTag, [2, 1, 5, 2, 1, 7]⟩ =
      some [⟨integerTag, [5]⟩, ⟨integerTag, [7]⟩] ∧
    Sequence_from_tlv_triplet ⟨sequenceTag, [2, 1, 5, 2, 1]⟩ =
      some [⟨integerTag, [5]⟩, ⟨integerTag, []⟩] := by
  refine ⟨fun v => rfl, by decide, by decide⟩

/-- C5: the claim says Integer encoding is minimal two's complement at
-129, -128, -1, 0, 1, 127, 128, 255.  At `0` the code computes a zero-length
byte string and then raises IndexError reading its first byte (`none` here);
at `-128` it emits the two bytes `FF 80` although the one byte `80` already
decodes to -128, so a redundant `FF` precedes the sign byte.  The other six
claimed points do encode minimally, and decoding is signed big-endian
two's complement. -/
theorem C5_integer_encoding_wrong_at_0_and_neg128 :
    Integer_value_bytes 0 = none ∧
    Integer_value_bytes (-128) = some [255, 128] ∧
    bytesToIntBE_signed [128] = -128 ∧
    Integer_value_bytes (-129) = some [255, 127] ∧
    Integer_value_bytes (-1) = some [255] ∧
    Integer_value_bytes 1 = some [1] ∧
    Integer_value_bytes 127 = some [127] ∧
    Integer_value_bytes 128 = some [0, 128] ∧
    Integer_value_bytes 255 = some [0, 255] ∧
    bytesToIntBE_signed [255, 128] = -128 := by
  refine ⟨by decide, by decide, by decide, by decide, by decide, by decide,
    by decide, by decide, by decide, by decide⟩

set_option maxRecDepth 10000 in
/-- C3: the claim says length-field round-trips hold at 0, 127, 128, 255,
65536 with minimal long-form encoding.  The short cases 0 and 127 do
round-trip, and the emitted length fields are minimal where emission
succeeds; but `from_bytes` slices the value from offset `num_length_bytes`
of the remainder instead of `1 + num_length_bytes`, so every long-form
round-trip (128, 255) returns a value that starts with the last length
byte and drops the final content byte; and at 65536 the encoder computes
`ceil(log2 65536 / 8) = 2` length bytes, one too few, so `to_bytes` raises
OverflowError (`none`).  The hypothesis fixes the content length of `v` at
65536. -/
theorem C3_length_roundtrip_broken (v : List Nat) (h : v.length = 65536) :
    TagLengthValueTriplet.toBytes ⟨integerTag, []⟩ = some [2, 0] ∧
    TagLengthValueTriplet.from_bytes [2, 0] = some ⟨integerTag, []⟩ ∧
    (TagLengthValueTriplet.toBytes ⟨integerTag, List.replicate 127 9⟩).bind
      TagLengthValueTriplet.from_bytes = some ⟨integerTag, List.replicate 127 9⟩ ∧
    TagLengthValueTriplet.toBytes ⟨integerTag, List.replicate 128 9⟩ =
      some ([2, 129, 128] ++ List.replicate 128 9) ∧
    (TagLengthValueTriplet.toBytes ⟨integerTag, List.replicate 128 9⟩).bind
      TagLengthValueTriplet.from_bytes = some ⟨integerTag, 128 :: List.replicate 127 9⟩ ∧
    (128 :: List.replicate 127 9 ≠ List.replicate 128 9) ∧
    (TagLengthValueTriplet.toBytes ⟨integerTag, List.replicate 255 9⟩).bind
      TagLengthValueTriplet.from_bytes = some ⟨integerTag, 255 :: List.replicate 254 9⟩ ∧
    TagLengthValueTriplet.toBytes ⟨integerTag, v⟩ = none := by
  have h2 : natToBytesBE ((bitLen 65535 + 7) / 8) 65536 = none := by decide
  refine ⟨by decide, by decide, by decide, by decide, by decide, by decide, by decide, ?_⟩
  simp only [TagLengthValueTriplet.toBytes, h, h2]
  norm_num

/-- Witness for C3: at the concrete value `List.replicate 65536 0` the
hypothesis holds and the encoder returns `none`. -/
theorem C3_length_roundtrip_broken_witness :
    (List.replicate 65536 (0 : Nat)).length = 65536 ∧
    TagLengthValueTriplet.toBytes ⟨integerTag, List.replicate 65536 (0 : Nat)⟩ = none :=
  ⟨List.length_replicate 65536 0,
    (C3_length_roundtrip_broken (List.replicate 65536 0)
      (List.length_replicate 65536 0)).2.2.2.2.2.2.2⟩

/-- C6: the claim says the value bytes `88 37 03` decode to the OID 2.999.3
and that 2.999.3 and 1.2.840.113549.1.1.11 round-trip.  The code derives the
first two arcs from `data[0]` alone (`% 40` and `/ 40`), never treating the
leading subidentifier as a varint, so `88 37 03` decodes to 3.16.55.3;
encoding 2.999.3 puts `2*40 + 999 = 1079` into a single byte and `bytes()`
raises ValueError (`none`); and encoding arc 113549 sets the continuation
bit only on the first of its three chunks, so decoding splits it into the
two arcs 887 and 13. -/
theorem C6_oid_decode_and_roundtrip_broken :
    OID.from_bytes [136, 55, 3] = some ⟨[3, 16, 55, 3]⟩ ∧
    (⟨[3, 16, 55, 3]⟩ : OID) ≠ ⟨[2, 999, 3]⟩ ∧
    OID.toBytes ⟨[2, 999, 3]⟩ = none ∧
    OID.toBytes ⟨[1, 2, 840, 113549, 1, 1, 11]⟩ =
      some [42, 134, 72, 134, 119, 13, 1, 1, 11] ∧
    (OID.toBytes ⟨[1, 2, 840, 113549, 1, 1, 11]⟩).bind OID.from_bytes =
      some ⟨[1, 2, 840, 887, 13, 1, 1, 11]⟩ := by
  refine ⟨by decide, by decide, by decide, by decide, by decide⟩

set_option maxRecDepth 10000 in
/-- C7: the claim says the reported byte length of a triplet equals
actual tag bytes + actual length-field bytes + value bytes, which equals the
serialized length.  This holds in the all-short case (tag number ≤ 30,
content length ≤ 127), but `__len__` computes the long length-field term as
`1 + ceil(bits/7) * 7` instead of `1 + ceil(bits/8)`: a triplet with a
128-byte value reports 144 while its serialization is 1 + 2 + 128 = 131
bytes; and `Tag.__len__` omits the leading tag byte in the long form, so a
tag with number 128 reports 2 while its serialization is 3 bytes. -/
theorem C7_reported_length_disagrees_with_serialization :
    TagLengthValueTriplet.len ⟨integerTag, [5]⟩ = 3 ∧
    (TagLengthValueTriplet.toBytes ⟨integerTag, [5]⟩).map List.length = some 3 ∧
    TagLengthValueTriplet.len ⟨integerTag, List.replicate 128 0⟩ = 144 ∧
    (TagLengthValueTriplet.toBytes ⟨integerTag, List.replicate 128 0⟩).map List.length =
      some 131 ∧
    Tag.len ⟨.universal, .primitive, 128⟩ = 2 ∧
    (Tag.toBytes ⟨.universal, .primitive, 128⟩).length = 3 := by
  refine ⟨by decide, by decide, by decide, by decide, by decide, by decide⟩

/-- C8: the claim says SequenceOf decoding terminates, returns the siblings
when their tags agree and fails with HeterogeneousSequenceOf otherwise.  The
method's first statement calls `cls._from_tlv_triplet` — itself — on the same
argument, so it recurses unboundedly and Python raises RecursionError on
every input; for every recursion-depth budget the model returns that error,
and the homogeneity check is unreachable. -/
theorem C8_sequence_of_decode_never_returns :
    (∀ (fuel : Nat) (t : TagLengthValueTriplet),
      SequenceOf_from_tlv_triplet fuel t = .error "RecursionError") ∧
    SequenceOf_from_tlv_triplet 1000 ⟨sequenceTag, [2, 1, 5, 2, 1, 7]⟩ =
      .error "RecursionError" := by
  have main : ∀ (fuel : Nat) (t : TagLengthValueTriplet),
      SequenceOf_from_tlv_triplet fuel t = .error "RecursionError" := by
    intro fuel
    induction fuel with
    | zero => intro t; rfl
    | succ n ih => intro t; simp only [SequenceOf_from_tlv_triplet, ih]
  exact ⟨main, main 1000 _⟩

/-- C9: the claim says Enumerated behaves exactly like Integer, differing
only in its canonical tag, and that decoding as Enumerated accepts a TLV with
the universal ENUMERATED tag (number 10).  The class declaration reads
`tag = ASN1UniversalTag.ENUMERATED` without `.value`, so the class attribute
is the enum member, never equal to any `Tag`; `from_tlv_triplet` therefore
raises ValueError for every input triplet, including one carrying the
ENUMERATED tag, while the same dispatch for Integer accepts its tag. -/
theorem C9_enumerated_decode_always_rejects :
    (∀ t : TagLengthValueTriplet,
      from_tlv_triplet_as Enumerated_class_tag t = .error "ValueError") ∧
    from_tlv_triplet_as Enumerated_class_tag ⟨enumeratedTag, [5]⟩ = .error "ValueError" ∧
    from_tlv_triplet_as Integer_class_tag ⟨integerTag, [5]⟩ = .ok 5 := by
  refine ⟨fun t => ?_, rfl, rfl⟩
  simp [from_tlv_triplet_as, Enumerated_class_tag]

/-- C10: for every triplet bearing the Boolean tag, decoding yields True
exactly when the value byte string is non-empty — in particular the single
byte 0x00 decodes to True — and encoding emits the one-byte value 0x01 for
True and 0x00 for False. -/
theorem C10_boolean_truthiness :
    (∀ v : List Nat, (Boolean_from_tlv_triplet ⟨booleanTag, v⟩ = true ↔ v ≠ [])) ∧
    Boolean_from_tlv_triplet ⟨booleanTag, [0]⟩ = true ∧
    Boolean_tlv_triplet true = ⟨booleanTag, [1]⟩ ∧
    Boolean_tlv_triplet false = ⟨booleanTag, [0]⟩ := by
  refine ⟨fun v => ?_, by decide, by decide, by decide⟩
  simp [Boolean_from_tlv_triplet]

end Asn1
